import Mathlib

/-
Verification of the garden-tracker core against its specification.

Shallow embedding conventions:
  - Calendar dates are integers (day numbers); a Python timedelta of d days
    is addition of d, and a timedelta of w weeks is addition of 7 * w.
  - Nullable database columns (SQLAlchemy columns without nullable=False)
    become Option values; a Python None is none.
  - Python truthiness on an optional integer (used by the source in
    expressions such as potted or viable or 0) is: None and 0 are falsy,
    every other integer is truthy.
  - The Float column germination_rate is modelled as an exact rational;
    the source formula ceil(total / (rate/100)) is expressed with the
    integer ceiling on the rationals.
-/

namespace GardenTracker

/-! ## Capacity table (models.py, GrowBag.calculate_capacity) -/

/-- Row of the capacity dict for the compact category (models.py line 120);
the same pairs appear as the compact column of the table in section 4.2 of
the spec. -/
def compactRow : List (Nat × Nat) :=
  [(1, 1), (2, 2), (3, 3), (5, 5), (7, 7), (10, 10), (15, 15), (20, 20), (25, 25)]

/-- Row of the capacity dict for the medium category (models.py line 121). -/
def mediumRow : List (Nat × Nat) :=
  [(1, 0), (2, 0), (3, 1), (5, 1), (7, 2), (10, 2), (15, 3), (20, 4), (25, 5)]

/-- Row of the capacity dict for the large category (models.py line 122). -/
def largeRow : List (Nat × Nat) :=
  [(1, 0), (2, 0), (3, 0), (5, 0), (7, 1), (10, 1), (15, 1), (20, 2), (25, 2)]

/-- capacity.get(plant_size_category, capacity[medium]) from models.py
line 124: the dict keyed by category, any unrecognized category falling
back to the medium row. -/
def capacityRowFor (plant_size_category : String) : List (Nat × Nat) :=
  if plant_size_category = "compact" then compactRow
  else if plant_size_category = "medium" then mediumRow
  else if plant_size_category = "large" then largeRow
  else mediumRow

/-- The loop in models.py lines 126-128: walk the ascending key list and
return the value at the first key that is at least the requested volume. -/
def firstAtLeast (v : Nat) : List (Nat × Nat) → Option Nat
  | [] => none
  | (k, c) :: rest => if v ≤ k then some c else firstAtLeast v rest

/-- GrowBag.calculate_capacity (models.py lines 116-129): look up the row
for the category, scan the sorted keys for the first key that is at least
size_gallons, and fall back to the value at the largest key. -/
def calculate_capacity (size_gallons : Nat) (plant_size_category : String) : Nat :=
  let row := capacityRowFor plant_size_category
  match firstAtLeast size_gallons row with
  | some c => c
  | none => ((row.getLast?).map Prod.snd).getD 0

/-- The ascending key sequence of the capacity table, as listed in section
4.2 of the spec. -/
def tableKeys : List Nat := [1, 2, 3, 5, 7, 10, 15, 20, 25]

/-- The smallest tabulated volume that is at least v, clamped to the
largest key 25 when v exceeds every key. Stated from the spec wording of
the lookup algorithm in section 4.2, for comparison with the source
lookup. -/
def smallestKeyGe (v : Nat) : Nat :=
  ((tableKeys.filter (fun k => decide (v ≤ k))).head?).getD 25

/-- Table value at an exact key, read from the row association list. -/
def tableValueAt (row : List (Nat × Nat)) (k : Nat) : Nat :=
  ((row.find? (fun kc => kc.1 == k)).map Prod.snd).getD 0

/-! ## Date rules (models.py, Seed) -/

/-- Seed.calculate_harvest_date (models.py lines 74-78): when
days_to_maturity is truthy (present and nonzero) the harvest estimate is
transplant_date plus that many days, otherwise there is none. -/
def calculate_harvest_date (days_to_maturity : Option Int) (transplant_date : Int) :
    Option Int :=
  match days_to_maturity with
  | some d => if d ≠ 0 then some (transplant_date + d) else none
  | none => none

/-- Truthiness of an optional integer: Python treats None and 0 as falsy. -/
def optTruthy (x : Option Int) : Bool :=
  match x with
  | none => false
  | some n => n != 0

/-- The guard at app.py line 623: expected_harvest is
seed.calculate_harvest_date(transplant_date) if seed.days_to_maturity else
None. -/
def plantAddExpectedHarvest (days_to_maturity : Option Int) (transplant_date : Int) :
    Option Int :=
  if optTruthy days_to_maturity then calculate_harvest_date days_to_maturity transplant_date
  else none

/-! ## Seed lots and seedling batches -/

/-- The SeedLot fields the core rules read (models.py, class Seed). -/
structure SeedLot where
  quantity : Int
  germination_rate : Option ℚ
  days_to_maturity : Option Int
  weeks_to_transplant : Int
  size_category : String
  deriving Repr, DecidableEq

/-- The SeedlingBatch fields the core rules read or write (models.py,
class Seedling). -/
structure Seedling where
  status : String
  quantity_started : Int
  quantity_viable : Option Int
  quantity_potted_up : Option Int
  sown_date : Option Int
  germination_date : Option Int
  expected_transplant_date : Option Int
  actual_transplant_date : Option Int
  potted_up_date : Option Int
  pot_size : Option String
  notes : Option String
  deriving Repr, DecidableEq

/-- The Python expression a or b on an optional integer with an integer
fallback: the value of a when truthy, else the fallback. -/
def pyOrInt (a : Option Int) (b : Int) : Int :=
  match a with
  | none => b
  | some n => if n = 0 then b else n

/-- available = seedling.quantity_potted_up or seedling.quantity_viable or 0
(app.py line 659 and line 1244). -/
def availableOf (s : Seedling) : Int :=
  pyOrInt s.quantity_potted_up (pyOrInt s.quantity_viable 0)

/-- seedling_add (app.py lines 404-446), restricted to the fields of the
data model: builds the new batch, with status growing when a germination
date was supplied and germinating otherwise, viable quantity defaulting to
the started quantity, the expected transplant date offset by the seed
weeks_to_transplant, and decrements the seed lot quantity by
quantity_started with no clamping (app.py line 441). Returns the updated
lot and the new batch. -/
def seedlingAdd (seed : SeedLot) (sown_date : Int) (germination_date : Option Int)
    (quantity_started : Int) (quantity_viable_input : Option Int) :
    SeedLot × Seedling :=
  let expected_transplant := sown_date + 7 * seed.weeks_to_transplant
  let quantity_viable := quantity_viable_input.getD quantity_started
  let status := if germination_date.isSome then "growing" else "germinating"
  let batch : Seedling :=
    { status := status
      quantity_started := quantity_started
      quantity_viable := some quantity_viable
      quantity_potted_up := none
      sown_date := some sown_date
      germination_date := germination_date
      expected_transplant_date := some expected_transplant
      actual_transplant_date := none
      potted_up_date := none
      pot_size := none
      notes := none }
  ({ seed with quantity := seed.quantity - quantity_started }, batch)

/-- The form fields read by seedling_update. An empty form field is none. -/
structure UpdateForm where
  status : String
  quantity_viable : Option Int
  germination_date : Option Int
  notes : Option String
  deriving Repr, DecidableEq

/-- seedling_update (app.py lines 460-480): sets the status to the value
supplied by the form with no transition validation, and overwrites the
viable quantity, germination date and notes only when the corresponding
form field is nonempty. -/
def seedlingUpdate (s : Seedling) (f : UpdateForm) : Seedling :=
  let s1 := { s with status := f.status }
  let s2 := match f.quantity_viable with
            | some v => { s1 with quantity_viable := some v }
            | none => s1
  let s3 := match f.germination_date with
            | some d => { s2 with germination_date := some d }
            | none => s2
  match f.notes with
  | some n => { s3 with notes := some n }
  | none => s3

/-- seedling_pot_up (app.py lines 483-503): sets status to potted_up
unconditionally, records the potted-up date and pot size, and takes the
potted-up quantity from the form, defaulting to the batch viable quantity.
When the form omits the quantity and the viable quantity is absent, the
Python int(None) call raises and the request aborts with no mutation,
modelled as none. -/
def seedlingPotUp (s : Seedling) (potted_up_date : Int) (pot_size : Option String)
    (quantity_potted_up_input : Option Int) : Option Seedling :=
  match (match quantity_potted_up_input with
         | some n => some n
         | none => s.quantity_viable) with
  | none => none
  | some q =>
      some { s with
              status := "potted_up"
              potted_up_date := some potted_up_date
              pot_size := pot_size
              quantity_potted_up := some q }

/-- The transplant-consumption block of plant_add (app.py lines 655-670):
available is the potted-up quantity when truthy, else the viable quantity,
else 0; the consumed quantity is subtracted; the source field (potted-up
preferred) is set to the remainder clamped at 0; when the remainder is at
most 0 the batch status becomes transplanted and the actual transplant
date is recorded. -/
def consumeSeedling (s : Seedling) (quantity : Int) (transplant_date : Int) : Seedling :=
  let available := pyOrInt s.quantity_potted_up (pyOrInt s.quantity_viable 0)
  let remaining := available - quantity
  let s1 :=
    if optTruthy s.quantity_potted_up then
      { s with quantity_potted_up := some (max 0 remaining) }
    else
      { s with quantity_viable := some (max 0 remaining) }
  if remaining ≤ 0 then
    { s1 with status := "transplanted", actual_transplant_date := some transplant_date }
  else s1

/-- The seedling-update block of hydro_plant_add (app.py lines 1241-1252):
available is the potted-up quantity when truthy, else the viable quantity,
else 0; one unit is consumed; the source field is set to the remainder
clamped at 0; when the remainder is at most 0 the batch status becomes
transplanted and the actual transplant date is recorded. -/
def hydroConsumeSeedling (s : Seedling) (transplant_date : Int) : Seedling :=
  let available := pyOrInt s.quantity_potted_up (pyOrInt s.quantity_viable 0)
  let remaining := available - 1
  let s1 :=
    if optTruthy s.quantity_potted_up then
      { s with quantity_potted_up := some (max 0 remaining) }
    else
      { s with quantity_viable := some (max 0 remaining) }
  if remaining ≤ 0 then
    { s1 with status := "transplanted", actual_transplant_date := some transplant_date }
  else s1

/-! ## Planning allocator (models.py, PlantingPlanItem) -/

/-- PlantingPlanItem.total_plants_needed (models.py lines 522-524):
num_bags times plants_per_bag. -/
def total_plants_needed (num_bags plants_per_bag : Int) : Int :=
  num_bags * plants_per_bag

/-- PlantingPlanItem.seeds_to_start (models.py lines 526-531): when the
germination rate is truthy and positive, the ceiling of
total / (rate / 100); otherwise twice the total. -/
def seeds_to_start (num_bags plants_per_bag : Int) (germination_rate : Option ℚ) : Int :=
  let total := num_bags * plants_per_bag
  match germination_rate with
  | some r => if r ≠ 0 ∧ 0 < r then ⌈(total : ℚ) / (r / 100)⌉ else total * 2
  | none => total * 2

/-! ## Grow bag occupancy (models.py, GrowBag; app.py, api_growbag_capacity) -/

/-- The GrowBag fields the occupancy rules read (models.py, class
GrowBag). -/
structure GrowBag where
  size_gallons : Nat
  max_plants : Int
  current_plants : Int
  deriving Repr, DecidableEq

/-- GrowBag.available_space (models.py lines 112-114): max_plants minus
current_plants, with no floor. -/
def available_space (g : GrowBag) : Int :=
  g.max_plants - g.current_plants

/-- The availability computed by api_growbag_capacity (app.py line 976):
max(0, table capacity for the seed size category minus the count of active
plants in the bag). -/
def apiAvailableSpace (g : GrowBag) (size_category : String) (current_count : Int) : Int :=
  max 0 ((calculate_capacity g.size_gallons size_category : Int) - current_count)

/-! ## Seedling deletion guard (app.py, seedling_delete) -/

/-- The PlantRecord field the deletion guard reads. -/
structure PlantRec where
  seedling_id : Option Nat
  deriving Repr, DecidableEq

/-- The stored state the deletion route touches: the seedling batches (by
id) and the plant records. -/
structure Store where
  seedlings : List Nat
  plants : List PlantRec
  deriving Repr, DecidableEq

/-- Plant.query.filter_by(seedling_id=seedling_id).count() from app.py
line 514. -/
def refCount (st : Store) (sid : Nat) : Nat :=
  (st.plants.filter (fun p => p.seedling_id == some sid)).length

/-- Outcome of a deletion request. -/
inductive DeleteResult where
  | refused (blocking : Nat)
  | deleted
  deriving Repr, DecidableEq

/-- seedling_delete (app.py lines 506-525): when any plant record
references the batch the deletion is refused, the blocking count is
reported and the store is untouched; otherwise the batch is removed. -/
def seedling_delete (st : Store) (sid : Nat) : Store × DeleteResult :=
  let plant_count := refCount st sid
  if 0 < plant_count then (st, DeleteResult.refused plant_count)
  else ({ st with seedlings := st.seedlings.filter (fun i => i != sid) }, DeleteResult.deleted)

/-! ## Calendar aggregation (app.py, planting_calendar) -/

/-- The per-date entry of the events index built by planting_calendar:
three per-kind lists of item names, accumulated in insertion order. -/
structure DayEvents where
  seed_starts : List String
  transplants : List String
  harvests : List String
  deriving Repr, DecidableEq

/-- One row of the upcoming-tasks list (app.py lines 909-932): the date,
the fixed action label, the item name, the kind tag and the badge hint. -/
structure Task where
  date : Nat
  action : String
  name : String
  kind : String
  badge : String
  deriving Repr, DecidableEq

/-- The loop body for one date of the window (app.py lines 909-932): the
seed starts, then the transplants, then the harvests of that date, each
tagged with its fixed action label, kind and badge. -/
def dayTasks (d : Nat) (e : DayEvents) : List Task :=
  e.seed_starts.map (fun nm =>
    { date := d, action := "Start Seeds", name := nm, kind := "seed-start", badge := "warning" }) ++
  e.transplants.map (fun nm =>
    { date := d, action := "Transplant", name := nm, kind := "transplant", badge := "success" }) ++
  e.harvests.map (fun nm =>
    { date := d, action := "Harvest", name := nm, kind := "harvest", badge := "info" })

/-- The upcoming-tasks computation of planting_calendar (app.py lines
904-935): scan the 14 dates from today, flatten each day through dayTasks,
then sort by date with a stable sort (the final upcoming_tasks.sort with
the date key; Python list.sort is stable, modelled by insertion sort).
The events dict is modelled as a total function; a date absent from the
dict carries three empty lists and contributes nothing. -/
def upcomingTasks (today : Nat) (events : Nat → DayEvents) : List Task :=
  List.insertionSort (fun a b => a.date ≤ b.date)
    ((List.range 14).flatMap (fun i => dayTasks (today + i) (events (today + i))))

/-! ## Concrete records used by example-level statements -/

/-- A seed lot holding two seeds, for exercising the sowing decrement. -/
def smallLot : SeedLot :=
  { quantity := 2
    germination_rate := none
    days_to_maturity := none
    weeks_to_transplant := 6
    size_category := "medium" }

/-- A batch with five potted up and eight viable, the configuration named
by the spec consumption examples. -/
def pottedBatch : Seedling :=
  { status := "ready"
    quantity_started := 10
    quantity_viable := some 8
    quantity_potted_up := some 5
    sown_date := some 0
    germination_date := some 5
    expected_transplant_date := some 42
    actual_transplant_date := none
    potted_up_date := some 20
    pot_size := some "4 inch"
    notes := none }

/-- A batch already in the terminal transplanted status. -/
def terminalBatch : Seedling :=
  { status := "transplanted"
    quantity_started := 4
    quantity_viable := some 0
    quantity_potted_up := some 0
    sown_date := some 0
    germination_date := some 4
    expected_transplant_date := some 42
    actual_transplant_date := some 42
    potted_up_date := none
    pot_size := none
    notes := none }

/-- An update form that asks for the germinating status. -/
def backwardForm : UpdateForm :=
  { status := "germinating"
    quantity_viable := none
    germination_date := none
    notes := none }

/-- A bag holding more plants than its configured maximum. -/
def overfullBag : GrowBag :=
  { size_gallons := 5, max_plants := 1, current_plants := 3 }

/-- Row selection as worded by the claim for C1: the compact and large
categories select their own rows, every other category string selects the
medium row. -/
def specRowFor (cat : String) : List (Nat × Nat) :=
  if cat = "compact" then compactRow
  else if cat = "large" then largeRow
  else mediumRow

/-! ## Theorems -/

theorem cap_compact (v : Nat) :
    calculate_capacity v "compact" = tableValueAt compactRow (smallestKeyGe v) := by
  rcases le_or_lt v 25 with h | h
  · interval_cases v <;> decide
  · have h1 : ¬ v ≤ 1 := by omega
    have h2 : ¬ v ≤ 2 := by omega
    have h3 : ¬ v ≤ 3 := by omega
    have h5 : ¬ v ≤ 5 := by omega
    have h7 : ¬ v ≤ 7 := by omega
    have h10 : ¬ v ≤ 10 := by omega
    have h15 : ¬ v ≤ 15 := by omega
    have h20 : ¬ v ≤ 20 := by omega
    have h25 : ¬ v ≤ 25 := by omega
    simp [calculate_capacity, capacityRowFor, compactRow, firstAtLeast, smallestKeyGe,
      tableKeys, tableValueAt, h1, h2, h3, h5, h7, h10, h15, h20, h25]

theorem cap_medium (v : Nat) :
    calculate_capacity v "medium" = tableValueAt mediumRow (smallestKeyGe v) := by
  rcases le_or_lt v 25 with h | h
  · interval_cases v <;> decide
  · have h1 : ¬ v ≤ 1 := by omega
    have h2 : ¬ v ≤ 2 := by omega
    have h3 : ¬ v ≤ 3 := by omega
    have h5 : ¬ v ≤ 5 := by omega
    have h7 : ¬ v ≤ 7 := by omega
    have h10 : ¬ v ≤ 10 := by omega
    have h15 : ¬ v ≤ 15 := by omega
    have h20 : ¬ v ≤ 20 := by omega
    have h25 : ¬ v ≤ 25 := by omega
    simp [calculate_capacity, capacityRowFor, mediumRow, firstAtLeast, smallestKeyGe,
      tableKeys, tableValueAt, h1, h2, h3, h5, h7, h10, h15, h20, h25]

theorem cap_large (v : Nat) :
    calculate_capacity v "large" = tableValueAt largeRow (smallestKeyGe v) := by
  rcases le_or_lt v 25 with h | h
  · interval_cases v <;> decide
  · have h1 : ¬ v ≤ 1 := by omega
    have h2 : ¬ v ≤ 2 := by omega
    have h3 : ¬ v ≤ 3 := by omega
    have h5 : ¬ v ≤ 5 := by omega
    have h7 : ¬ v ≤ 7 := by omega
    have h10 : ¬ v ≤ 10 := by omega
    have h15 : ¬ v ≤ 15 := by omega
    have h20 : ¬ v ≤ 20 := by omega
    have h25 : ¬ v ≤ 25 := by omega
    simp [calculate_capacity, capacityRowFor, largeRow, firstAtLeast, smallestKeyGe,
      tableKeys, tableValueAt, h1, h2, h3, h5, h7, h10, h15, h20, h25]

theorem cap_other_category (v : Nat) (cat : String) (hc1 : cat ≠ "compact")
    (hc2 : cat ≠ "medium") (hc3 : cat ≠ "large") :
    calculate_capacity v cat = calculate_capacity v "medium" := by
  simp [calculate_capacity, capacityRowFor, hc1, hc2, hc3]

/-- C1: for every volume v and size-category string, calculate_capacity
returns the table value at the smallest tabulated key that is at least v
(smallestKeyGe clamps to the largest key 25 when v exceeds every key), the
row being the compact or large row for those categories and the medium row
for every other category string. -/
theorem c1_capacity_table (v : Nat) (cat : String) :
    calculate_capacity v cat = tableValueAt (specRowFor cat) (smallestKeyGe v) := by
  by_cases hc1 : cat = "compact"
  · subst hc1; simpa [specRowFor] using cap_compact v
  by_cases hc2 : cat = "medium"
  · subst hc2; simpa [specRowFor] using cap_medium v
  by_cases hc3 : cat = "large"
  · subst hc3; simpa [specRowFor] using cap_large v
  · rw [cap_other_category v cat hc1 hc2 hc3, cap_medium v]
    simp [specRowFor, hc1, hc3]

/-- C2: transplant consumption of n units computes the available count as
the potted-up quantity when set and nonzero, else the viable quantity,
else 0; it sets the source field to the remainder clamped at 0 and leaves
the other quantity field unchanged; status becomes transplanted with the
transplant date recorded exactly when the remainder is at most 0. With
potted_up=5 and viable=8, consuming 3 leaves potted_up=2, viable=8 and the
non-terminal status unchanged; consuming 5 leaves potted_up=0 with status
transplanted. -/
theorem c2_transplant_consumption (s : Seedling) (n d : Int) :
    (if optTruthy s.quantity_potted_up then
        (consumeSeedling s n d).quantity_potted_up = some (max 0 (availableOf s - n)) ∧
        (consumeSeedling s n d).quantity_viable = s.quantity_viable
      else
        (consumeSeedling s n d).quantity_viable = some (max 0 (availableOf s - n)) ∧
        (consumeSeedling s n d).quantity_potted_up = s.quantity_potted_up) ∧
    (if availableOf s - n ≤ 0 then
        (consumeSeedling s n d).status = "transplanted" ∧
        (consumeSeedling s n d).actual_transplant_date = some d
      else
        (consumeSeedling s n d).status = s.status ∧
        (consumeSeedling s n d).actual_transplant_date = s.actual_transplant_date) ∧
    consumeSeedling pottedBatch 3 100 = { pottedBatch with quantity_potted_up := some 2 } ∧
    (consumeSeedling pottedBatch 3 100).status = "ready" ∧
    (consumeSeedling pottedBatch 5 100).quantity_potted_up = some 0 ∧
    (consumeSeedling pottedBatch 5 100).status = "transplanted" := by
  refine ⟨?_, ?_, by decide, by decide, by decide, by decide⟩ <;>
    · unfold consumeSeedling availableOf
      by_cases h1 : optTruthy s.quantity_potted_up <;>
        by_cases h2 : pyOrInt s.quantity_potted_up (pyOrInt s.quantity_viable 0) - n ≤ 0 <;>
          simp [h1, h2]

/-- C3 counterexample: sowing 5 seeds from a lot holding 2 leaves the lot
quantity at -3, not at the claimed max(0, 2 - 5) = 0. -/
theorem c3_counterexample :
    (seedlingAdd smallLot 0 none 5 none).1.quantity = -3 ∧
    (seedlingAdd smallLot 0 none 5 none).1.quantity ≠ max 0 (smallLot.quantity - 5) := by
  decide

/-- C3 amended: sowing a batch of quantity_started q from a lot holding s
seeds leaves the lot with quantity s - q exactly, with no clamping, so the
stored quantity goes negative whenever q exceeds s. -/
theorem c3_sow_decrement_unclamped (seed : SeedLot) (sd : Int) (gd : Option Int)
    (q : Int) (vin : Option Int) :
    (seedlingAdd seed sd gd q vin).1.quantity = seed.quantity - q := rfl

/-- C4: the seedling update performed by hydro-plant creation is exactly
the soil-plant transplant consumption with n = 1: same preference of the
potted-up count over the viable count, same clamp at 0, same terminal
status rule. -/
theorem c4_hydro_refines_soil_consumption (s : Seedling) (d : Int) :
    hydroConsumeSeedling s d = consumeSeedling s 1 d := rfl

/-- C5: for a plan item of b containers and p plants per container the
total plant count is b times p; seeds_to_start is the ceiling of
total / (rate/100) when the germination rate is present and positive and
twice the total otherwise; rate 80 with total 10 yields 13 and an absent
rate with total 10 yields 20. -/
theorem c5_planning (nb ppb : Int) (r : ℚ) :
    total_plants_needed nb ppb = nb * ppb ∧
    (0 < r → seeds_to_start nb ppb (some r) =
      ⌈((total_plants_needed nb ppb : Int) : ℚ) / (r / 100)⌉) ∧
    (r ≤ 0 → seeds_to_start nb ppb (some r) = total_plants_needed nb ppb * 2) ∧
    seeds_to_start nb ppb none = total_plants_needed nb ppb * 2 ∧
    seeds_to_start 5 2 (some 80) = 13 ∧
    seeds_to_start 5 2 none = 20 := by
  refine ⟨rfl, ?_, ?_, rfl, ?_, rfl⟩
  · intro hr
    simp [seeds_to_start, total_plants_needed, hr, ne_of_gt hr]
  · intro hr
    have hne : ¬(r ≠ 0 ∧ 0 < r) := fun hcon => absurd hcon.2 (not_lt.mpr hr)
    simp [seeds_to_start, total_plants_needed, hne]
  · simp only [seeds_to_start]
    norm_num
    rw [Int.ceil_eq_iff]
    constructor <;> norm_num

/-- C5 witness: the positive-rate and nonpositive-rate branches of the
planning theorem instantiated at concrete rates 80 and -50. -/
theorem c5_planning_witness :
    seeds_to_start 5 2 (some 80) = ⌈((total_plants_needed 5 2 : Int) : ℚ) / (80 / 100)⌉ ∧
    seeds_to_start 5 2 (some (-50)) = total_plants_needed 5 2 * 2 :=
  ⟨(c5_planning 5 2 80).2.1 (by norm_num), (c5_planning 5 2 (-50)).2.2.1 (by norm_num)⟩

theorem dayTasks_date {d : Nat} {e : DayEvents} {t : Task} (ht : t ∈ dayTasks d e) :
    t.date = d := by
  unfold dayTasks at ht
  simp only [List.mem_append, List.mem_map] at ht
  rcases ht with (⟨nm, _, rfl⟩ | ⟨nm, _, rfl⟩) | ⟨nm, _, rfl⟩ <;> rfl

theorem window_pairwise (today n : Nat) (events : Nat → DayEvents) :
    List.Pairwise (fun a b : Task => a.date ≤ b.date)
      ((List.range n).flatMap (fun i => dayTasks (today + i) (events (today + i)))) := by
  induction n with
  | zero => simp
  | succ m ih =>
      rw [List.range_succ, List.flatMap_append, List.pairwise_append]
      refine ⟨ih, ?_, ?_⟩
      · simp only [List.flatMap_cons, List.flatMap_nil, List.append_nil]
        exact List.pairwise_of_forall_mem_list fun a ha b hb => by
          rw [dayTasks_date ha, dayTasks_date hb]
      · intro a ha b hb
        rw [List.mem_flatMap] at ha
        obtain ⟨i, hi, hai⟩ := ha
        rw [List.mem_range] at hi
        simp only [List.flatMap_cons, List.flatMap_nil, List.append_nil] at hb
        rw [dayTasks_date hai, dayTasks_date hb]
        omega

/-- C6: the upcoming-tasks list is exactly the flattening of the 14 dates
from today through today + 13, in nondecreasing date order, with each date
contributing its seed starts, then its transplants, then its harvests,
each entry carrying its fixed action label, kind tag and badge as built by
dayTasks; a task appears in the list exactly when it is an indexed event
of a date inside the window. -/
theorem c6_upcoming_tasks (today : Nat) (events : Nat → DayEvents) :
    upcomingTasks today events
      = (List.range 14).flatMap (fun i => dayTasks (today + i) (events (today + i))) ∧
    List.Pairwise (fun a b : Task => a.date ≤ b.date) (upcomingTasks today events) ∧
    ∀ t : Task, t ∈ upcomingTasks today events ↔
      ∃ d : Nat, today ≤ d ∧ d ≤ today + 13 ∧ t ∈ dayTasks d (events d) := by
  have hsorted : List.Sorted (fun a b : Task => a.date ≤ b.date)
      ((List.range 14).flatMap (fun i => dayTasks (today + i) (events (today + i)))) :=
    window_pairwise today 14 events
  have heq : upcomingTasks today events
      = (List.range 14).flatMap (fun i => dayTasks (today + i) (events (today + i))) := by
    unfold upcomingTasks
    exact List.Sorted.insertionSort_eq hsorted
  refine ⟨heq, heq ▸ hsorted, ?_⟩
  intro t
  rw [heq, List.mem_flatMap]
  constructor
  · rintro ⟨i, hi, hti⟩
    rw [List.mem_range] at hi
    exact ⟨today + i, by omega, by omega, hti⟩
  · rintro ⟨d, hd1, hd2, htd⟩
    refine ⟨d - today, ?_, ?_⟩
    · rw [List.mem_range]; omega
    · have hdd : today + (d - today) = d := by omega
      rw [hdd]; exact htd

/-- C7 counterexample: a batch in the terminal transplanted status leaves
it when the update operation is applied with the germinating status. -/
theorem c7_counterexample :
    terminalBatch.status = "transplanted" ∧
    (seedlingUpdate terminalBatch backwardForm).status = "germinating" ∧
    (seedlingUpdate terminalBatch backwardForm).status ≠ "transplanted" := by
  decide

/-- C7 amended: creation sets status growing exactly when a germination
date is supplied and germinating otherwise; but the status transitions are
not confined to the chain: the update operation sets the status to the
caller-supplied form value unconditionally, and pot-up sets potted_up
regardless of the current status, so terminal states are not protected. -/
theorem c7_status_machine_amended (seed : SeedLot) (sd : Int) (gd : Option Int)
    (q : Int) (vin : Option Int) (s : Seedling) (f : UpdateForm) (pd : Int)
    (ps : Option String) (qin : Option Int) :
    ((seedlingAdd seed sd gd q vin).2.status
        = if gd.isSome then "growing" else "germinating") ∧
    (seedlingUpdate s f).status = f.status ∧
    ((seedlingPotUp s pd ps qin).all (fun r => r.status == "potted_up")) = true := by
  refine ⟨rfl, ?_, ?_⟩
  · unfold seedlingUpdate
    cases f.quantity_viable <;> cases f.germination_date <;> cases f.notes <;> rfl
  · unfold seedlingPotUp
    cases qin with
    | some n => rfl
    | none => cases s.quantity_viable <;> rfl

/-- C8 counterexample: a bag with max_plants 1 and current_plants 3
reports available_space -2, which is negative and differs from the claimed
floored value max(0, max - current) = 0. -/
theorem c8_counterexample :
    available_space overfullBag = -2 ∧
    available_space overfullBag < 0 ∧
    available_space overfullBag ≠ max 0 (overfullBag.max_plants - overfullBag.current_plants) := by
  decide

/-- C8 amended: the GrowBag available_space property is max_plants minus
current_plants with no floor, and is negative exactly when current exceeds
max; only the capacity API endpoint floors its reported availability at 0,
computing max(0, table capacity minus current count), which is never
negative. -/
theorem c8_available_space_amended (g : GrowBag) (cat : String) (cc : Int) :
    available_space g = g.max_plants - g.current_plants ∧
    (available_space g < 0 ↔ g.max_plants < g.current_plants) ∧
    apiAvailableSpace g cat cc = max 0 ((calculate_capacity g.size_gallons cat : Int) - cc) ∧
    0 ≤ apiAvailableSpace g cat cc := by
  refine ⟨rfl, ?_, rfl, le_max_left 0 _⟩
  unfold available_space
  omega

/-- C9: for every stored state, deleting a seedling batch succeeds exactly
when no plant record references it; when the reference count is positive
the deletion is refused, that count is reported, and the store is
unchanged; otherwise the batch is removed. -/
theorem c9_delete_guard (st : Store) (sid : Nat) :
    ((seedling_delete st sid).2 = DeleteResult.deleted ↔ refCount st sid = 0) ∧
    (if 0 < refCount st sid then
        (seedling_delete st sid).1 = st ∧
        (seedling_delete st sid).2 = DeleteResult.refused (refCount st sid)
      else
        (seedling_delete st sid).1 =
          { st with seedlings := st.seedlings.filter (fun i => i != sid) } ∧
        (seedling_delete st sid).2 = DeleteResult.deleted) := by
  unfold seedling_delete
  by_cases h : 0 < refCount st sid <;> simp [h] <;> omega

/-- C10: a harvest estimate is produced exactly when days_to_maturity is
present and nonzero; a zero value yields none exactly as an absent one,
and the plant-creation guard around the call computes the same value as
the call itself. -/
theorem c10_harvest_only_when_nonzero (dtm : Option Int) (t : Int) :
    calculate_harvest_date (some 0) t = none ∧
    calculate_harvest_date none t = none ∧
    ((calculate_harvest_date dtm t).isSome ↔ ∃ k, dtm = some k ∧ k ≠ 0) ∧
    plantAddExpectedHarvest dtm t = calculate_harvest_date dtm t := by
  refine ⟨rfl, rfl, ?_, ?_⟩
  · cases dtm with
    | none => simp [calculate_harvest_date]
    | some k => by_cases hk : k = 0 <;> simp [calculate_harvest_date, hk]
  · cases dtm with
    | none => rfl
    | some k =>
        by_cases hk : k = 0 <;>
          simp [plantAddExpectedHarvest, calculate_harvest_date, optTruthy, hk]

end GardenTracker
